import Mathlib

/-!
Verification of the telegram-tap-climb-game adapter.

The repository has two Python source files:

* `src/apiserver/apiserver.py` — the Score Relay Endpoint (`POST /score`):
  `safe_int` coercion, addressing validation, one outbound call to the
  platform score API, and relay of the result.
* `src/bot/gamebot.py` — the Command/Callback Handler: `game_callback`
  builds the mini-game launch URL, `highscores_cmd` formats the high-score
  list.

This file gives a shallow embedding of those handlers.  JSON values are an
inductive type (numbers are modelled as integers; floating point is out of
scope for the claims).  The network is passed in as an explicit function
argument, and each endpoint returns, next to its HTTP reply, the list of
outbound calls it made, so that "no outbound call" and "no retry" are
visible in the result.  Python string-to-int conversion is modelled for
ASCII strings with an optional sign and decimal digits (the underscore
digit separators Python also accepts are not modelled; no claim touches
them).
-/

/-- A JSON value, as delivered by `request.get_json`.  Numbers are
integers; an object is its ordered field list. -/
inductive JsonValue where
  | null : JsonValue
  | bool (b : Bool) : JsonValue
  | int (n : Int) : JsonValue
  | str (s : String) : JsonValue
  | arr (elems : List JsonValue) : JsonValue
  | obj (fields : List (String × JsonValue)) : JsonValue

/-- Python truthiness (`bool(v)`) of a JSON value: `None`, `False`, `0`,
empty string, empty list and empty dict are falsy. -/
def pyTruthy : JsonValue → Bool
  | .null => false
  | .bool b => b
  | .int n => n != 0
  | .str s => s ≠ ""
  | .arr elems => ¬ elems.isEmpty
  | .obj fields => ¬ fields.isEmpty

/-- Truthiness of a possibly absent value: `data.get` yields `None` for a
missing key, which is falsy. -/
def pyTruthyOpt : Option JsonValue → Bool
  | none => false
  | some v => pyTruthy v

/-- Read a list of characters as a decimal natural number; `none` when the
list is empty or holds a non-digit. -/
def digitsToNat : List Char → Option Nat
  | [] => none
  | cs => cs.foldlM (fun acc c => if c.isDigit then some (acc * 10 + (c.toNat - 48)) else none) 0

/-- Whitespace stripped by Python `str.strip` (ASCII model). -/
def isPySpace (c : Char) : Bool :=
  c = ' ' || c = '\t' || c = '\n' || c = '\r' || c = '\x0b' || c = '\x0c'

/-- `str.strip()` on a character list: drop whitespace at both ends. -/
def stripChars (cs : List Char) : List Char :=
  ((cs.dropWhile isPySpace).reverse.dropWhile isPySpace).reverse

/-- Python `int(s)` on a string: strip surrounding whitespace, allow one
leading sign, require at least one decimal digit. -/
def pyStrToInt (s : String) : Option Int :=
  match stripChars s.toList with
  | '-' :: rest => (digitsToNat rest).map (fun n => -(n : Int))
  | '+' :: rest => (digitsToNat rest).map (fun n => (n : Int))
  | cs => (digitsToNat cs).map (fun n => (n : Int))

/-- Python `int(v)` on a JSON value: booleans convert (`True` is `1`,
`False` is `0` — `bool` is an `int` subtype), integers pass through,
strings are parsed, everything else raises `TypeError`/`ValueError`,
which `safe_int` turns into `None`. -/
def pyIntCoerce : JsonValue → Option Int
  | .bool b => some (if b then 1 else 0)
  | .int n => some n
  | .str s => pyStrToInt s
  | _ => none

/-- `safe_int` from `apiserver.py`.  `none` on the input stands for the
key being absent or JSON `null` (both give Python `None` via `data.get`).
When the value is `None` and `allow_none` is set it returns `None`;
otherwise it tries `int(value)` and returns `None` on
`ValueError`/`TypeError` — so `int(None)` also yields `None`, and the
`allow_none` flag never changes the result. -/
def safe_int (value : Option JsonValue) (allow_none : Bool) : Option Int :=
  match value, allow_none with
  | none, true => none
  | none, false => none
  | some v, _ => pyIntCoerce v

/-- The fields the Score Relay Endpoint reads from the request body.
`none` stands for an absent key (or a JSON `null` value: `data.get`
collapses the two). -/
structure ScoreRequest where
  user_id : Option JsonValue
  user_name : Option JsonValue
  chat_id : Option JsonValue
  message_id : Option JsonValue
  inline_message_id : Option JsonValue
  score : Option JsonValue

/-- The outbound `setGameScore` payload dict built by the endpoint; an
`Option` field is present in the dict exactly when it is `some`. -/
structure Payload where
  user_id : Int
  score : Int
  force : Bool
  inline_message_id : Option JsonValue
  chat_id : Option Int
  message_id : Option Int

/-- Validation and payload construction of `score_endpoint` in
`apiserver.py` (everything before the `requests.post` call): coerce the
fields with `safe_int`, reject a non-integer `user_id`/`score` with 400,
prefer a truthy `inline_message_id`, otherwise require integer `chat_id`
and `message_id`, and set `force = False`. -/
def build_payload (req : ScoreRequest) : Except (Nat × String) Payload :=
  let user_id := safe_int req.user_id false
  let chat_id := safe_int req.chat_id true
  let message_id := safe_int req.message_id true
  let score := safe_int req.score false
  match user_id, score with
  | some uid, some sc =>
    if pyTruthyOpt req.inline_message_id then
      .ok { user_id := uid, score := sc, force := false,
            inline_message_id := req.inline_message_id,
            chat_id := none, message_id := none }
    else
      match chat_id, message_id with
      | some c, some m =>
        .ok { user_id := uid, score := sc, force := false,
              inline_message_id := none,
              chat_id := some c, message_id := some m }
      | _, _ => .error (400, "missing message identifiers")
  | _, _ => .error (400, "invalid user_id/score")

/-- What the `requests` library hands back from the platform call:
the HTTP status code, the body text, and the result of `r.json()`
(`none` when the body is not JSON, i.e. `r.json()` raises). -/
structure TelegramResponse where
  status_code : Nat
  text : String
  json : Option JsonValue

/-- `r.ok` of the `requests` library: true unless `raise_for_status`
would raise, i.e. unless the status code is in 400..599. -/
def requests_ok (r : TelegramResponse) : Bool :=
  decide (r.status_code < 400 ∨ 600 ≤ r.status_code)

/-- The `body` the endpoint relays: `r.json()` when it parses, else the
fallback `{"raw": r.text}`. -/
def response_body (r : TelegramResponse) : JsonValue :=
  match r.json with
  | some j => j
  | none => .obj [("raw", .str r.text)]

/-- `dict.get` on an object field list: first binding wins (a parsed JSON
dict has each key once). -/
def dict_get : List (String × JsonValue) → String → Option JsonValue
  | [], _ => none
  | (k, v) :: rest, key => if k = key then some v else dict_get rest key

/-- `isinstance(body, dict) and body.get("ok")` as a boolean: the body is
a dict and its `ok` entry is truthy. -/
def response_is_ok_dict (body : JsonValue) : Bool :=
  match body with
  | .obj fields =>
    match dict_get fields "ok" with
    | some v => pyTruthy v
    | none => false
  | _ => false

/-- The JSON reply of the endpoint together with its status code; an
`Option` field is present in the reply body exactly when it is `some`. -/
structure HttpReply where
  status : Nat
  ok : Bool
  error : Option String
  telegram : Option JsonValue

/-- `score_endpoint` of `apiserver.py`.  The network is the explicit
argument `net` (`Except.error e` stands for `requests.RequestException`
with `str(e) = e`, caught by the endpoint).  The second component of the
result is the list of payloads POSTed to the platform, in order, so that
making no call, or exactly one call, is visible in the result. -/
def score_endpoint (req : ScoreRequest)
    (net : Payload → Except String TelegramResponse) :
    HttpReply × List Payload :=
  match build_payload req with
  | .error (st, msg) =>
    ({ status := st, ok := false, error := some msg, telegram := none }, [])
  | .ok payload =>
    match net payload with
    | .error e =>
      ({ status := 502, ok := false, error := some e, telegram := none }, [payload])
    | .ok r =>
      let body := response_body r
      let ok := requests_ok r && response_is_ok_dict body
      ({ status := if ok then 200 else 502, ok := ok, error := none,
         telegram := some body }, [payload])

/-- Modelled from the spec: the success formula of §4.1 step 7,
"transport succeeded AND response is a JSON object AND its `ok` field is
true", to be compared with what the code computes. -/
def specSuccess (r : TelegramResponse) : Bool :=
  requests_ok r &&
    (match response_body r with
     | .obj fields =>
       match dict_get fields "ok" with
       | some (.bool true) => true
       | _ => false
     | _ => false)

/-! ### The Command/Callback Handler (`gamebot.py`) -/

/-- One character under Python `urllib.parse.quote_plus` (ASCII model):
alphanumerics and `_ . - ~` stay, a space becomes `+`, everything else is
percent-encoded with two uppercase hex digits. -/
def quote_plus_char (c : Char) : String :=
  if c.isAlphanum || c = '_' || c = '.' || c = '-' || c = '~' then
    String.singleton c
  else if c = ' ' then "+"
  else
    let n := c.toNat % 256
    let hexDigit := fun (k : Nat) => Char.ofNat (if k < 10 then 48 + k else 55 + k)
    String.mk ['%', hexDigit (n / 16), hexDigit (n % 16)]

/-- Python `quote_plus` over a whole string. -/
def quote_plus (s : String) : String :=
  String.join (s.toList.map quote_plus_char)

/-- Python `urllib.parse.urlencode`: join `key=value` pairs with `&`,
each side passed through `quote_plus` (values are already strings here;
`urlencode` applies `str` to them, done at the call sites below). -/
def urlencode : List (String × String) → String
  | [] => ""
  | [(k, v)] => quote_plus k ++ "=" ++ quote_plus v
  | (k, v) :: rest => quote_plus k ++ "=" ++ quote_plus v ++ "&" ++ urlencode rest

/-- The message attached to a callback query, with the fields a Telegram
message carries that matter here: `game_callback` reads `chat.id` and
`message_id`; the thread identifier is carried by the message but never
read by `game_callback`. -/
structure MessageRef where
  chat_id : Int
  message_id : Int
  message_thread_id : Option Int

/-- The callback query fields `game_callback` reads.  `game_short_name`
is `""` when the event carries no game identifier (Python `None` or the
empty string, both falsy). -/
structure CallbackQuery where
  id : String
  game_short_name : String
  from_user_id : Int
  inline_message_id : Option String
  message : Option MessageRef

/-- The `params` dict built by `game_callback`, in insertion order, with
every value already converted by `str` as `urlencode` does: `api_base`,
`user_id`, `inline_message_id` (the identifier or `""`), then `chat_id`
and `message_id` when the query carries a message. -/
def game_callback_params (public_url : String) (cq : CallbackQuery) :
    List (String × String) :=
  let base := [("api_base", public_url),
               ("user_id", toString cq.from_user_id),
               ("inline_message_id", cq.inline_message_id.getD "")]
  match cq.message with
  | some m => base ++ [("chat_id", toString m.chat_id),
                       ("message_id", toString m.message_id)]
  | none => base

/-- `game_callback` of `gamebot.py`: ignore the update when there is no
callback query or it carries no game identifier; otherwise answer the
callback query with the launch URL.  The result is
`some (callback_query_id, url)` when the handler answers and `none` when
it takes no action. -/
def game_callback (public_url : String) (cq : Option CallbackQuery) :
    Option (String × String) :=
  match cq with
  | none => none
  | some q =>
    if q.game_short_name = "" then none
    else
      some (q.id,
        public_url ++ "/climbgame/?" ++ urlencode (game_callback_params public_url q))

/-- One entry returned by the platform high-scores API, restricted to the
fields `highscores_cmd` reads: `s.user.first_name` and `s.score`. -/
structure GameHighScore where
  first_name : String
  score : Int

/-- The lines `highscores_cmd` builds:
`f"{i+1}. {s.user.first_name}: {s.score}"` over `enumerate(scores)`. -/
def highscore_lines (scores : List GameHighScore) : List String :=
  scores.enum.map (fun p =>
    toString (p.1 + 1) ++ ". " ++ p.2.first_name ++ ": " ++ toString p.2.score)

/-- The message `highscores_cmd` replies to, restricted to what it reads:
whether `reply_to_message` carries a `game`, and its chat and message
identifiers. -/
structure RefMessage where
  has_game : Bool
  chat_id : Int
  message_id : Int

/-- `highscores_cmd` of `gamebot.py`.  `ref` is
`update.effective_message.reply_to_message` (absent when the command was
not a reply).  `fetch` is `bot.get_game_high_scores`, applied to
`(user_id, chat_id, message_id)`.  The result is the reply text together
with the list of high-score fetches made, so that "no external call" is
visible in the result. -/
def highscores_cmd (user_id : Int) (ref : Option RefMessage)
    (fetch : Int → Int → Int → List GameHighScore) :
    String × List (Int × Int × Int) :=
  match ref with
  | none => ("Reply to a game message with /highscores.", [])
  | some r =>
    if ¬ r.has_game then ("Reply to a game message with /highscores.", [])
    else
      let scores := fetch user_id r.chat_id r.message_id
      let calls := [(user_id, r.chat_id, r.message_id)]
      if scores.isEmpty then ("No scores yet.", calls)
      else (String.intercalate "\n" (highscore_lines scores), calls)

/-! ### Concrete inputs used by the witness theorems -/

/-- The `ok` entry of the relayed body, when the body is a dict: what
`body.get("ok")` reads. -/
def body_ok_field (r : TelegramResponse) : Option JsonValue :=
  match response_body r with
  | .obj fields => dict_get fields "ok"
  | _ => none

/-- A submission addressed by chat and message identifiers. -/
def reqChat : ScoreRequest :=
  { user_id := some (.int 42), user_name := none,
    chat_id := some (.int 7), message_id := some (.int 9),
    inline_message_id := none, score := some (.int 100) }

/-- A submission carrying both an inline identifier and the chat/message
pair. -/
def reqBoth : ScoreRequest :=
  { user_id := some (.int 42), user_name := none,
    chat_id := some (.int 7), message_id := some (.int 9),
    inline_message_id := some (.str "abc"), score := some (.int 100) }

/-- A submission with no addressing fields at all. -/
def reqNoAddr : ScoreRequest :=
  { user_id := some (.int 42), user_name := none,
    chat_id := none, message_id := none,
    inline_message_id := none, score := some (.int 100) }

/-- A submission whose `user_id` is the JSON boolean `true`. -/
def reqBool : ScoreRequest :=
  { user_id := some (.bool true), user_name := none,
    chat_id := some (.int 7), message_id := some (.int 9),
    inline_message_id := none, score := some (.int 100) }

/-- The payload `reqChat` produces. -/
def pChat : Payload :=
  { user_id := 42, score := 100, force := false,
    inline_message_id := none, chat_id := some 7, message_id := some 9 }

/-- A successful platform answer: HTTP 200 whose body parses to a dict
with `ok` true and a `result` entry.  The raw text is irrelevant here
since the body parses. -/
def rTelegramOk : TelegramResponse :=
  { status_code := 200, text := "ok and result",
    json := some (.obj [("ok", .bool true), ("result", .bool true)]) }

/-- A network that answers every call with `rTelegramOk`. -/
def netOk : Payload → Except String TelegramResponse :=
  fun _ => .ok rTelegramOk

/-- A network on which every call raises `requests.RequestException`. -/
def netRefused : Payload → Except String TelegramResponse :=
  fun _ => .error "Connection refused"

/-- A game message carrying a thread identifier. -/
def m7 : MessageRef := { chat_id := 7, message_id := 9, message_thread_id := some 77 }

/-- A game callback query whose message carries thread identifier 77. -/
def q7 : CallbackQuery :=
  { id := "cb1", game_short_name := "tapclimbjump", from_user_id := 42,
    inline_message_id := none, message := some m7 }

/-- A reply-to message that is a game message. -/
def refGame : RefMessage := { has_game := true, chat_id := 7, message_id := 9 }

/-- A high-scores fetch returning the two entries of the spec example. -/
def fetchAnnBo : Int → Int → Int → List GameHighScore :=
  fun _ _ _ => [{ first_name := "Ann", score := 10 }, { first_name := "Bo", score := 5 }]

/-- A high-scores fetch returning no entries. -/
def fetchEmpty : Int → Int → Int → List GameHighScore :=
  fun _ _ _ => []

/-- Whether the first list starts the second. -/
def startsSeq : List Char → List Char → Bool
  | [], _ => true
  | _ :: _, [] => false
  | a :: as, b :: bs => a = b && startsSeq as bs

/-- Whether the first list occurs contiguously inside the second. -/
def containsSeq (pat : List Char) : List Char → Bool
  | [] => startsSeq pat []
  | b :: bs => startsSeq pat (b :: bs) || containsSeq pat bs

/-! ### Helper lemmas -/

theorem safe_int_some (v : JsonValue) (b : Bool) : safe_int (some v) b = pyIntCoerce v := by
  cases b <;> rfl

theorem safe_int_none (b : Bool) : safe_int none b = none := by
  cases b <;> rfl

/-- When every `ok` entry the relayed body may carry is a boolean — the
shape the platform documents — the boolean the endpoint computes agrees
with the success formula of the spec. -/
theorem ok_code_eq_spec (r : TelegramResponse)
    (hok : ∀ v, body_ok_field r = some v → ∃ b, v = .bool b) :
    (requests_ok r && response_is_ok_dict (response_body r)) = specSuccess r := by
  unfold specSuccess response_is_ok_dict
  rcases hb : response_body r with _ | _ | _ | _ | _ | fields
  · rfl
  · rfl
  · rfl
  · rfl
  · rfl
  · rcases hg : dict_get fields "ok" with _ | v
    · simp [hg]
    · obtain ⟨b, rfl⟩ := hok v (by simp [body_ok_field, hb, hg])
      cases b <;> simp [hg, pyTruthy]

/-! ### The claims about the Score Relay Endpoint -/

/-- C1: for every submission with integer `user_id` and `score` and either
a non-empty `inline_message_id` string or both `chat_id` and `message_id`
present as integers, the outbound payload holds exactly one of the two
addressing shapes and never both: a present non-empty `inline_message_id`
wins, with `chat_id` and `message_id` omitted even when both were given;
otherwise the payload holds `chat_id` and `message_id` and omits
`inline_message_id`. -/
theorem c1_addressing_exclusive (req : ScoreRequest) (u sc : Int)
    (hu : req.user_id = some (.int u)) (hs : req.score = some (.int sc))
    (hty : req.inline_message_id = none ∨ ∃ s, req.inline_message_id = some (.str s))
    (haddr : (∃ s, req.inline_message_id = some (.str s) ∧ s ≠ "") ∨
      (∃ c m : Int, req.chat_id = some (.int c) ∧ req.message_id = some (.int m))) :
    ∃ p, build_payload req = .ok p ∧ p.user_id = u ∧ p.score = sc ∧
      ((∃ s, req.inline_message_id = some (.str s) ∧ s ≠ "") →
        p.inline_message_id = req.inline_message_id ∧
          p.chat_id = none ∧ p.message_id = none) ∧
      ((¬ ∃ s, req.inline_message_id = some (.str s) ∧ s ≠ "") →
        p.inline_message_id = none ∧
        (∃ c, req.chat_id = some (.int c) ∧ p.chat_id = some c) ∧
        (∃ m, req.message_id = some (.int m) ∧ p.message_id = some m)) := by
  by_cases hin : ∃ s, req.inline_message_id = some (JsonValue.str s) ∧ s ≠ ""
  · obtain ⟨s, hseq, hsne⟩ := hin
    refine ⟨{ user_id := u, score := sc, force := false,
              inline_message_id := req.inline_message_id,
              chat_id := none, message_id := none }, ?_, rfl, rfl,
            fun _ => ⟨rfl, rfl, rfl⟩,
            fun hcon => absurd ⟨s, hseq, hsne⟩ hcon⟩
    simp [build_payload, hu, hs, safe_int_some, pyIntCoerce, hseq,
      pyTruthyOpt, pyTruthy, hsne]
  · have hfalsy : pyTruthyOpt req.inline_message_id = false := by
      rcases hty with h0 | ⟨s, h1⟩
      · simp [h0, pyTruthyOpt]
      · have hse : s = "" := by
          by_contra hne
          exact hin ⟨s, h1, hne⟩
        simp [h1, hse, pyTruthyOpt, pyTruthy]
    obtain ⟨c, m, hc, hm⟩ := haddr.resolve_left hin
    refine ⟨{ user_id := u, score := sc, force := false,
              inline_message_id := none,
              chat_id := some c, message_id := some m }, ?_, rfl, rfl,
            fun hcon => absurd hcon hin,
            fun _ => ⟨rfl, ⟨c, hc, rfl⟩, ⟨m, hm, rfl⟩⟩⟩
    simp [build_payload, hu, hs, hc, hm, safe_int_some, pyIntCoerce, hfalsy]

theorem c1_witness :
    ∃ p, build_payload reqBoth = .ok p ∧ p.user_id = 42 ∧ p.score = 100 ∧
      ((∃ s, reqBoth.inline_message_id = some (.str s) ∧ s ≠ "") →
        p.inline_message_id = reqBoth.inline_message_id ∧
          p.chat_id = none ∧ p.message_id = none) ∧
      ((¬ ∃ s, reqBoth.inline_message_id = some (.str s) ∧ s ≠ "") →
        p.inline_message_id = none ∧
        (∃ c, reqBoth.chat_id = some (.int c) ∧ p.chat_id = some c) ∧
        (∃ m, reqBoth.message_id = some (.int m) ∧ p.message_id = some m)) :=
  c1_addressing_exclusive reqBoth 42 100 rfl rfl
    (Or.inr ⟨"abc", rfl⟩) (Or.inl ⟨"abc", rfl, by decide⟩)

/-- C6: a submission whose `user_id` or `score` does not coerce to an
integer is answered with 400 and the error `"invalid user_id/score"`, and
no outbound call is made. -/
theorem c6_invalid_rejected (req : ScoreRequest)
    (net : Payload → Except String TelegramResponse)
    (h : safe_int req.user_id false = none ∨ safe_int req.score false = none) :
    score_endpoint req net =
      ({ status := 400, ok := false, error := some "invalid user_id/score",
         telegram := none }, []) := by
  have hb : build_payload req = .error (400, "invalid user_id/score") := by
    rcases h with h | h
    · simp [build_payload, h]
    · rcases hx : safe_int req.user_id false with _ | uid <;>
        simp [build_payload, h, hx]
  simp [score_endpoint, hb]

theorem c6_witness :
    score_endpoint { reqChat with score := some (.str "abc") } netOk =
      ({ status := 400, ok := false, error := some "invalid user_id/score",
         telegram := none }, []) :=
  c6_invalid_rejected { reqChat with score := some (.str "abc") } netOk (Or.inr (by decide))

/-- C5: a submission with integer `user_id` and `score` whose
`inline_message_id` is absent or the empty string and whose `chat_id` or
`message_id` does not coerce to an integer is answered with 400 and the
error `"missing message identifiers"`, and no outbound call is made. -/
theorem c5_missing_identifiers (req : ScoreRequest)
    (net : Payload → Except String TelegramResponse) (u sc : Int)
    (hu : req.user_id = some (.int u)) (hs : req.score = some (.int sc))
    (hinl : req.inline_message_id = none ∨ req.inline_message_id = some (.str ""))
    (haddr : safe_int req.chat_id true = none ∨ safe_int req.message_id true = none) :
    score_endpoint req net =
      ({ status := 400, ok := false, error := some "missing message identifiers",
         telegram := none }, []) := by
  have hfalsy : pyTruthyOpt req.inline_message_id = false := by
    rcases hinl with h | h <;> simp [h, pyTruthyOpt, pyTruthy]
  have hb : build_payload req = .error (400, "missing message identifiers") := by
    rcases haddr with h | h
    · simp [build_payload, hu, hs, safe_int_some, pyIntCoerce, hfalsy, h]
    · rcases hx : safe_int req.chat_id true with _ | c <;>
        simp [build_payload, hu, hs, safe_int_some, pyIntCoerce, hfalsy, h, hx]
  simp [score_endpoint, hb]

theorem c5_witness :
    score_endpoint reqNoAddr netOk =
      ({ status := 400, ok := false, error := some "missing message identifiers",
         telegram := none }, []) :=
  c5_missing_identifiers reqNoAddr netOk 42 100 rfl rfl (Or.inl rfl) (Or.inl rfl)

/-- C4: the endpoint coerces `user_id` and `score` and rejects with
`"invalid user_id/score"` exactly when one of them does not coerce to an
integer (so the numeric string `"100"` is accepted as `100`); a
non-coercible `chat_id` or `message_id` never fails the request by
itself — the endpoint behaves exactly as if the field were absent. -/
theorem c4_field_coercion (req : ScoreRequest) :
    (build_payload req = .error (400, "invalid user_id/score") ↔
      (safe_int req.user_id false = none ∨ safe_int req.score false = none)) ∧
    safe_int (some (.str "100")) false = some 100 ∧
    (∀ v : JsonValue, pyIntCoerce v = none →
      build_payload { req with chat_id := some v } =
        build_payload { req with chat_id := none } ∧
      build_payload { req with message_id := some v } =
        build_payload { req with message_id := none }) := by
  refine ⟨⟨?_, ?_⟩, by decide, ?_⟩
  · intro h
    rcases hx : safe_int req.user_id false with _ | uid
    · exact Or.inl rfl
    rcases hy : safe_int req.score false with _ | sc
    · exact Or.inr rfl
    exfalso
    by_cases ht : pyTruthyOpt req.inline_message_id
    · simp [build_payload, hx, hy, ht] at h
    · rcases hc : safe_int req.chat_id true with _ | c
      · simp [build_payload, hx, hy, ht, hc] at h
      · rcases hd : safe_int req.message_id true with _ | m
        · simp [build_payload, hx, hy, ht, hc, hd] at h
        · simp [build_payload, hx, hy, ht, hc, hd] at h
  · intro h
    rcases h with h | h
    · simp [build_payload, h]
    · rcases hx : safe_int req.user_id false with _ | uid <;>
        simp [build_payload, h, hx]
  · intro v hv
    constructor <;>
      simp [build_payload, safe_int_some, safe_int_none, hv]

theorem c4_witness :
    build_payload { reqChat with user_id := some (.arr []) } =
      .error (400, "invalid user_id/score") ∧
    safe_int (some (.str "100")) false = some 100 ∧
    build_payload { reqBoth with chat_id := some (.str "oops") } =
      build_payload { reqBoth with chat_id := none } := by
  refine ⟨(c4_field_coercion { reqChat with user_id := some (.arr []) }).1.mpr
            (Or.inl rfl),
          (c4_field_coercion reqChat).2.1,
          ((c4_field_coercion reqBoth).2.2 (.str "oops") (by decide)).1⟩

/-- C10: a submission whose `user_id` or `score` is a JSON boolean is
accepted rather than rejected with `"invalid user_id/score"`: Python
`bool` is an `int` subtype, so `int(True)` is `1` and `int(False)` is
`0`, and that integer is what the outbound payload carries. -/
theorem c10_bool_accepted (req : ScoreRequest) (b : Bool)
    (_h : req.user_id = some (.bool b) ∨ req.score = some (.bool b))
    (hu : (safe_int req.user_id false).isSome = true)
    (hs : (safe_int req.score false).isSome = true)
    (haddr : pyTruthyOpt req.inline_message_id = true ∨
      ((safe_int req.chat_id true).isSome = true ∧
        (safe_int req.message_id true).isSome = true)) :
    ∃ p, build_payload req = .ok p ∧
      (req.user_id = some (.bool b) → p.user_id = if b then 1 else 0) ∧
      (req.score = some (.bool b) → p.score = if b then 1 else 0) := by
  rcases hx : safe_int req.user_id false with _ | uid
  · rw [hx] at hu; exact absurd hu (by decide)
  rcases hy : safe_int req.score false with _ | sc
  · rw [hy] at hs; exact absurd hs (by decide)
  have huid : req.user_id = some (.bool b) → uid = if b then 1 else 0 := by
    intro he
    rw [he, safe_int_some, pyIntCoerce] at hx
    exact (Option.some.inj hx).symm
  have hsc : req.score = some (.bool b) → sc = if b then 1 else 0 := by
    intro he
    rw [he, safe_int_some, pyIntCoerce] at hy
    exact (Option.some.inj hy).symm
  by_cases ht : pyTruthyOpt req.inline_message_id
  · refine ⟨{ user_id := uid, score := sc, force := false,
              inline_message_id := req.inline_message_id,
              chat_id := none, message_id := none }, ?_, huid, hsc⟩
    simp [build_payload, hx, hy, ht]
  · have hpair := haddr.resolve_left (by simpa using ht)
    rcases hc : safe_int req.chat_id true with _ | c
    · rw [hc] at hpair; exact absurd hpair.1 (by decide)
    rcases hd : safe_int req.message_id true with _ | m
    · rw [hd] at hpair; exact absurd hpair.2 (by decide)
    refine ⟨{ user_id := uid, score := sc, force := false,
              inline_message_id := none,
              chat_id := some c, message_id := some m }, ?_, huid, hsc⟩
    simp [build_payload, hx, hy, ht, hc, hd]

theorem c10_witness :
    ∃ p, build_payload reqBool = .ok p ∧
      (reqBool.user_id = some (.bool true) → p.user_id = if true then 1 else 0) ∧
      (reqBool.score = some (.bool true) → p.score = if true then 1 else 0) :=
  c10_bool_accepted reqBool true (Or.inl rfl) rfl rfl (Or.inr ⟨rfl, rfl⟩)

/-- C2: when validation passes and the platform answers, the endpoint
computes success as "transport succeeded AND the body is a JSON object
AND its `ok` field is true" (stated through `specSuccess`, under the
documented shape in which an `ok` entry is a boolean), replies with that
boolean as `ok`, echoes the body under `telegram`, and uses status 200
on success and 502 otherwise. -/
theorem c2_relay_response (req : ScoreRequest)
    (net : Payload → Except String TelegramResponse)
    (p : Payload) (r : TelegramResponse)
    (hp : build_payload req = .ok p) (hn : net p = .ok r)
    (hok : ∀ v, body_ok_field r = some v → ∃ b, v = .bool b) :
    score_endpoint req net =
      ({ status := if specSuccess r then 200 else 502, ok := specSuccess r,
         error := none, telegram := some (response_body r) }, [p]) := by
  simp [score_endpoint, hp, hn, ok_code_eq_spec r hok]

theorem c2_witness :
    score_endpoint reqChat netOk =
      ({ status := if specSuccess rTelegramOk then 200 else 502,
         ok := specSuccess rTelegramOk, error := none,
         telegram := some (response_body rTelegramOk) }, [pChat]) ∧
    specSuccess rTelegramOk = true := by
  refine ⟨c2_relay_response reqChat netOk pChat rTelegramOk rfl rfl ?_, rfl⟩
  intro v hv
  have h : some (JsonValue.bool true) = some v := hv
  exact ⟨true, (Option.some.inj h).symm⟩

/-- C3: when validation passes and the outbound call fails at the
transport level, the endpoint answers 502 with `ok` false and the failure
description as the error string, after exactly one outbound attempt (no
retry); the endpoint is a total function, so no exception escapes. -/
theorem c3_transport_failure (req : ScoreRequest)
    (net : Payload → Except String TelegramResponse)
    (p : Payload) (e : String)
    (hp : build_payload req = .ok p) (hn : net p = .error e) :
    score_endpoint req net =
      ({ status := 502, ok := false, error := some e, telegram := none }, [p]) := by
  simp [score_endpoint, hp, hn]

theorem c3_witness :
    score_endpoint reqChat netRefused =
      ({ status := 502, ok := false, error := some "Connection refused",
         telegram := none }, [pChat]) :=
  c3_transport_failure reqChat netRefused pChat "Connection refused" rfl rfl

/-! ### The claims about the Command/Callback Handler -/

/-- C7 counterexample: a game callback whose message carries thread
identifier 77 produces a launch URL whose query holds `api_base`,
`user_id`, `inline_message_id`, `chat_id` and `message_id` but no
`thread_id` parameter and no occurrence of `77`, refuting the claim that
the query contains the thread identifier when the event carries one. -/
theorem c7_thread_id_missing :
    q7.message = some { chat_id := 7, message_id := 9, message_thread_id := some 77 } ∧
    game_callback "http://8.222.151.218" (some q7) =
      some ("cb1",
        "http://8.222.151.218/climbgame/?api_base=http%3A%2F%2F8.222.151.218&user_id=42&inline_message_id=&chat_id=7&message_id=9") ∧
    containsSeq "thread_id".toList
        ("http://8.222.151.218/climbgame/?api_base=http%3A%2F%2F8.222.151.218&user_id=42&inline_message_id=&chat_id=7&message_id=9").toList
      = false ∧
    containsSeq "77".toList
        ("http://8.222.151.218/climbgame/?api_base=http%3A%2F%2F8.222.151.218&user_id=42&inline_message_id=&chat_id=7&message_id=9").toList
      = false := by
  refine ⟨rfl, by decide, by decide, by decide⟩

/-- C7 as amended: for every game callback event carrying a game
identifier, the launch URL is the public base address followed by
`/climbgame/?` and the URL-encoded query holding `api_base` (the public
base address), `user_id`, `inline_message_id` (the identifier or empty),
and `chat_id` and `message_id` when the event carries a message — and
nothing else: in particular the thread identifier is never included,
even when the event carries one. -/
theorem c7_launch_url (pub : String) (q : CallbackQuery)
    (hgame : q.game_short_name ≠ "") :
    game_callback pub (some q) =
      some (q.id, pub ++ "/climbgame/?" ++ urlencode (game_callback_params pub q)) ∧
    (∀ m, q.message = some m →
      game_callback_params pub q =
        [("api_base", pub), ("user_id", toString q.from_user_id),
         ("inline_message_id", q.inline_message_id.getD ""),
         ("chat_id", toString m.chat_id), ("message_id", toString m.message_id)]) ∧
    (q.message = none →
      game_callback_params pub q =
        [("api_base", pub), ("user_id", toString q.from_user_id),
         ("inline_message_id", q.inline_message_id.getD "")]) ∧
    (∀ k v, (k, v) ∈ game_callback_params pub q →
      k = "api_base" ∨ k = "user_id" ∨ k = "inline_message_id" ∨
        k = "chat_id" ∨ k = "message_id") ∧
    (∀ k v, (k, v) ∈ game_callback_params pub q → k ≠ "thread_id") := by
  have henum : ∀ k v, (k, v) ∈ game_callback_params pub q →
      k = "api_base" ∨ k = "user_id" ∨ k = "inline_message_id" ∨
        k = "chat_id" ∨ k = "message_id" := by
    intro k v hkv
    rcases hq : q.message with _ | m <;>
      simp [game_callback_params, hq] at hkv <;> tauto
  refine ⟨by simp [game_callback, hgame], ?_, ?_, henum, ?_⟩
  · intro m hm
    simp [game_callback_params, hm]
  · intro hm
    simp [game_callback_params, hm]
  · intro k v hkv
    rcases henum k v hkv with rfl | rfl | rfl | rfl | rfl <;> decide

theorem c7_witness :
    game_callback "http://8.222.151.218" (some q7) =
      some (q7.id,
        "http://8.222.151.218" ++ "/climbgame/?" ++
          urlencode (game_callback_params "http://8.222.151.218" q7)) ∧
    game_callback_params "http://8.222.151.218" q7 =
      [("api_base", "http://8.222.151.218"), ("user_id", "42"),
       ("inline_message_id", ""), ("chat_id", "7"), ("message_id", "9")] := by
  have h := c7_launch_url "http://8.222.151.218" q7 (by decide)
  refine ⟨h.1, ?_⟩
  rw [h.2.1 m7 rfl]
  rfl

/-- C8: on a high-scores command that is a valid reply to a game message,
the handler fetches the list once and replies exactly "No scores yet."
when it is empty, and otherwise the newline-joined list of lines
"rank. name: score", 1-indexed, in fetched order (line i is built from
entry i of the fetched list — no local re-sorting). -/
theorem c8_highscores_format (uid : Int) (r : RefMessage)
    (fetch : Int → Int → Int → List GameHighScore) (hg : r.has_game = true) :
    (fetch uid r.chat_id r.message_id = [] →
      highscores_cmd uid (some r) fetch =
        ("No scores yet.", [(uid, r.chat_id, r.message_id)])) ∧
    (fetch uid r.chat_id r.message_id ≠ [] →
      highscores_cmd uid (some r) fetch =
        (String.intercalate "\n" (highscore_lines (fetch uid r.chat_id r.message_id)),
         [(uid, r.chat_id, r.message_id)])) ∧
    (∀ scores : List GameHighScore,
      (highscore_lines scores).length = scores.length ∧
      ∀ i (hi : i < scores.length) (hi2 : i < (highscore_lines scores).length),
        (highscore_lines scores).get ⟨i, hi2⟩ =
          toString (i + 1) ++ ". " ++ (scores.get ⟨i, hi⟩).first_name ++ ": " ++
            toString (scores.get ⟨i, hi⟩).score) := by
  refine ⟨?_, ?_, ?_⟩
  · intro h
    simp [highscores_cmd, hg, h]
  · intro h
    rcases hsc : fetch uid r.chat_id r.message_id with _ | ⟨a, rest⟩
    · exact absurd hsc h
    · simp [highscores_cmd, hg, hsc]
  · intro scores
    constructor
    · simp [highscore_lines, List.enum_length]
    · intro i hi hi2
      simp [highscore_lines, List.get_eq_getElem, List.getElem_map, List.getElem_enum]

theorem c8_witness :
    highscores_cmd 1 (some refGame) fetchAnnBo =
      ("1. Ann: 10\n2. Bo: 5", [(1, 7, 9)]) ∧
    highscores_cmd 1 (some refGame) fetchEmpty =
      ("No scores yet.", [(1, 7, 9)]) := by
  have h1 := (c8_highscores_format 1 refGame fetchAnnBo rfl).2.1 (by simp [fetchAnnBo])
  have h2 := (c8_highscores_format 1 refGame fetchEmpty rfl).1 rfl
  constructor
  · rw [h1]
    rfl
  · exact h2

/-- C9: a high-scores command whose triggering message is not a reply to
a game message (no reply, or a reply without a game) is answered with
exactly "Reply to a game message with /highscores." and no high-scores
fetch is made. -/
theorem c9_not_reply (uid : Int) (ref : Option RefMessage)
    (fetch : Int → Int → Int → List GameHighScore)
    (h : ref = none ∨ ∃ r, ref = some r ∧ r.has_game = false) :
    highscores_cmd uid ref fetch =
      ("Reply to a game message with /highscores.", []) := by
  rcases h with h | ⟨r, hr, hg⟩
  · simp [highscores_cmd, h]
  · simp [highscores_cmd, hr, hg]

theorem c9_witness :
    highscores_cmd 1 none fetchAnnBo =
      ("Reply to a game message with /highscores.", []) :=
  c9_not_reply 1 none fetchAnnBo (Or.inl rfl)
